import Mathlib

/-!
Shallow embedding of the CUTMIND MVP backend (src/backend of the
cutmind-mvp repository), covering the modules the specification's
claims are about:

* `rules_engine.py` — rule validation (`ALLOWED_OPERATIONS`,
  `_validate_operation`, `_validate_value_cm`, `validate_rules`).
* `geometry_engine.py` — the geometry engine (`OPERATION_HANDLERS`,
  `apply_geometry`).  In the source this module is an explicit no-op
  scaffold: `apply_geometry` returns its SVG argument unchanged and the
  handler table is the empty dict.

Python values that can occur in a rules payload are embedded as the
inductive `Value`.  Python `float` objects are embedded as `PyFloat`,
with finite values carried exactly as rationals: the IEEE-754 rounding
of in-range finite values is abstracted away (no claim inspects a
rounded magnitude), but overflow is modelled, because `float(int)`
raises `OverflowError` in CPython — an exception that
`validate_rules`'s `except (TypeError, ValueError)` clause does not
catch — exactly when rounding the integer would reach `2^1024`, i.e.
when its magnitude is at least `2^1024 - 2^970`.  String conversion
(`float(str)`) saturates to `inf` at the same magnitude instead of
raising, as CPython's `strtod`-based parsing does.
-/

namespace Cutmind

/-- Embedded Python `float` objects: a finite rational, an infinity, or NaN. -/
inductive PyFloat where
  | finite (q : ℚ)
  | inf
  | neginf
  | nan
deriving Repr, DecidableEq

/-- Embedded Python runtime values (the shapes a rules payload can take). -/
inductive Value where
  | none
  | bool (b : Bool)
  | int (n : Int)
  | float (f : PyFloat)
  | str (s : String)
  | list (xs : List Value)
  | dict (kvs : List (String × Value))

/-- Characters stripped by Python str.strip with no argument (ASCII
whitespace; exotic Unicode space code points are abstracted away). -/
def pyIsSpace (c : Char) : Bool :=
  c = ' ' || c = '\t' || c = '\n' || c = '\r' || c = '\x0b' || c = '\x0c'

/-- Python str.strip - remove leading and trailing whitespace. -/
def pyStrip (s : String) : String :=
  String.mk (((s.toList.dropWhile pyIsSpace).reverse.dropWhile pyIsSpace).reverse)

/-- Numeric value of a list of decimal digit characters. -/
def digitsToNat (ds : List Char) : Nat :=
  ds.foldl (fun a c => a * 10 + (c.toNat - 48)) 0

/-- Rational addition, written out through mkRat so concrete values
evaluate by kernel reduction (the library addition on ℚ is deliberately
not unfoldable). -/
def qadd (a b : ℚ) : ℚ := mkRat (a.num * b.den + b.num * a.den) (a.den * b.den)

/-- Rational subtraction through mkRat (see qadd). -/
def qsub (a b : ℚ) : ℚ := mkRat (a.num * b.den - b.num * a.den) (a.den * b.den)

/-- Rational multiplication through mkRat (see qadd). -/
def qmul (a b : ℚ) : ℚ := mkRat (a.num * b.num) (a.den * b.den)

/-- Rational division through Rat.divInt (see qadd); division by zero
yields zero, matching the library convention. -/
def qdiv (a b : ℚ) : ℚ := Rat.divInt (a.num * b.den) (b.num * a.den)

/-- Absolute value of a rational, by cases on the sign. -/
def qabs (q : ℚ) : ℚ := if q < 0 then Rat.neg q else q

/-- Powers of ten as naturals (structural recursion so concrete small
exponents evaluate by reduction). -/
def pow10 : Nat → Nat
  | 0 => 1
  | n + 1 => 10 * pow10 n

/-- Smallest magnitude at which CPython float conversion overflows: an
integer of magnitude at least `2^1024 - 2^970` rounds (ties-to-even) to
`2^1024`, beyond the largest finite IEEE-754 double.  Written as an
explicit numeral so it evaluates by reduction; the equation
floatOverflowBound_eq below checks it against the power form. -/
def floatOverflowBound : ℚ :=
  ((179769313486231580793728971405303415079934132710037826936173778980444968292764750946649017977587207096330286416692887910946555547851940402630657488671505820681908902000708383676273854845817711531764475730270069855571366959622842914819860834936475292719074168444365510704342711559699508093042880177904174497792 : ℕ) : ℚ)

/-- Multiply a parsed mantissa by `10 ^ exponent` (exponent sign split out
so everything stays in executable rational arithmetic). -/
def timesPow10 (m : ℚ) (negExp : Bool) (n : Nat) : ℚ :=
  if negExp then qdiv m ((pow10 n : ℕ) : ℚ) else qmul m ((pow10 n : ℕ) : ℚ)

/-- Parse the optional exponent part of a Python float literal (the
characters after the mantissa); underscore-free input. -/
def parseExpPart (m : ℚ) : List Char → Option ℚ
  | [] => some m
  | e :: rest =>
    if e = 'e' || e = 'E' then
      let signSplit : Bool × List Char :=
        match rest with
        | '+' :: ds => (false, ds)
        | '-' :: ds => (true, ds)
        | ds => (false, ds)
      let ds := signSplit.2.takeWhile Char.isDigit
      let leftover := signSplit.2.dropWhile Char.isDigit
      if ds.isEmpty || !leftover.isEmpty then Option.none
      else some (timesPow10 m signSplit.1 (digitsToNat ds))
    else Option.none

/-- Parse an unsigned Python decimal float literal (underscores already
removed): digits, optional point and fraction digits, optional exponent;
at least one digit must be present before the exponent. -/
def parseDecimalChars (cs : List Char) : Option ℚ :=
  let ip := cs.takeWhile Char.isDigit
  let rest1 := cs.dropWhile Char.isDigit
  match rest1 with
  | '.' :: rest2 =>
      let fp := rest2.takeWhile Char.isDigit
      let rest3 := rest2.dropWhile Char.isDigit
      if ip.isEmpty && fp.isEmpty then Option.none
      else
        parseExpPart
          (qadd ((digitsToNat ip : ℕ) : ℚ)
            (qdiv ((digitsToNat fp : ℕ) : ℚ) ((pow10 fp.length : ℕ) : ℚ)))
          rest3
  | _ =>
      if ip.isEmpty then Option.none
      else parseExpPart ((digitsToNat ip : ℕ) : ℚ) rest1

/-- Check that in `prev :: cs` every underscore sits between two digits
(Python's rule for underscores in numeric literals). -/
def underscoresOkAux : Char → List Char → Bool
  | prev, c :: rest =>
      (if c = '_' then
        prev.isDigit && (match rest with | d :: _ => d.isDigit | [] => false)
       else true)
      && underscoresOkAux c rest
  | _, [] => true

/-- Check that every underscore in the token sits between two digits. -/
def underscoresOk : List Char → Bool
  | [] => true
  | c :: rest => c ≠ '_' && underscoresOkAux c rest

/-- Python float applied to a string: strip whitespace, optional sign,
then `inf`, `infinity`, `nan` (case-insensitive) or a decimal literal
with underscores between digits.  Returns Option.none where CPython
raises ValueError; saturates to the infinities where the parsed
magnitude reaches the overflow bound. -/
def pyFloatOfString (s : String) : Option PyFloat :=
  let cs := (pyStrip s).toList
  let signSplit : Bool × List Char :=
    match cs with
    | '+' :: rest => (false, rest)
    | '-' :: rest => (true, rest)
    | rest => (false, rest)
  let neg := signSplit.1
  let body := signSplit.2
  let lower := body.map Char.toLower
  if lower = "inf".toList || lower = "infinity".toList then
    some (if neg then PyFloat.neginf else PyFloat.inf)
  else if lower = "nan".toList then
    some PyFloat.nan
  else if underscoresOk body then
    match parseDecimalChars (body.filter (fun c => c ≠ '_')) with
    | some q0 =>
        let q : ℚ := if neg then Rat.neg q0 else q0
        some (if q ≤ Rat.neg floatOverflowBound then PyFloat.neginf
              else if floatOverflowBound ≤ q then PyFloat.inf
              else PyFloat.finite q)
    | Option.none => Option.none
  else Option.none

/-- How a call to the builtin float can go wrong: a TypeError or
ValueError (both caught by validate_rules) or an OverflowError (not
caught by validate_rules). -/
inductive ConvErr where
  | typeOrValueError
  | overflowError
deriving Repr, DecidableEq

/-- The builtin float applied to an embedded Python value.  Bools are
numeric (float True = 1.0); ints overflow past the bound; strings are
parsed; None, lists and dicts raise TypeError. -/
def pyFloatOf : Value → Except ConvErr PyFloat
  | Value.none => Except.error ConvErr.typeOrValueError
  | Value.bool b => Except.ok (PyFloat.finite (if b then 1 else 0))
  | Value.int n =>
      if floatOverflowBound ≤ qabs ((n : ℤ) : ℚ) then Except.error ConvErr.overflowError
      else Except.ok (PyFloat.finite ((n : ℤ) : ℚ))
  | Value.float f => Except.ok f
  | Value.str s =>
      match pyFloatOfString s with
      | some f => Except.ok f
      | Option.none => Except.error ConvErr.typeOrValueError
  | Value.list _ => Except.error ConvErr.typeOrValueError
  | Value.dict _ => Except.error ConvErr.typeOrValueError

/-! Embedding of `src/backend/rules_engine.py`. -/

/-- Exceptions that can escape validate_rules: RuleValidationError (the
class defined in rules_engine.py, carrying its message) or the
OverflowError that an oversized int value_cm makes the builtin float
raise, which the except (TypeError, ValueError) clause does not catch. -/
inductive PyError where
  | ruleValidationError (msg : String)
  | overflowError
deriving Repr, DecidableEq

/-- ALLOWED_OPERATIONS from rules_engine.py, in source order (a Python
set literal, embedded as a list with membership as the set operation). -/
def ALLOWED_OPERATIONS : List String :=
  ["crop_hem", "extend_hem", "adjust_body_length", "add_ease_body",
   "remove_ease_body", "widen_sleeve", "narrow_sleeve", "shorten_sleeve",
   "extend_sleeve", "add_ease_sleeve", "raise_neckline", "lower_neckline"]

/-- A validated, normalized rule as produced by validate_rules:
operation is the stripped operation string, value_cm the float value. -/
structure Rule where
  operation : String
  value_cm : PyFloat
deriving Repr, DecidableEq

/-- The helper _validate_operation of rules_engine.py: the operation must
be a string whose strip is non-empty and in ALLOWED_OPERATIONS. -/
def _validate_operation (name : Value) : Except PyError String :=
  match name with
  | Value.str s =>
      let op := pyStrip s
      if op = "" then Except.error (PyError.ruleValidationError "operation cannot be empty")
      else if op ∈ ALLOWED_OPERATIONS then Except.ok op
      else Except.error (PyError.ruleValidationError ("unsupported operation: " ++ op))
  | _ => Except.error (PyError.ruleValidationError "operation must be a string")

/-- Whether an embedded value is the Python None (the `value is None`
test of the source). -/
def valueIsNone : Value → Bool
  | Value.none => true
  | _ => false

/-- The helper _validate_value_cm of rules_engine.py: None is rejected,
then the builtin float is tried; TypeError and ValueError become
RuleValidationError, while OverflowError propagates uncaught. -/
def _validate_value_cm (value : Value) : Except PyError PyFloat :=
  if valueIsNone value then
    Except.error (PyError.ruleValidationError "value_cm is required")
  else
    match pyFloatOf value with
    | Except.ok f => Except.ok f
    | Except.error ConvErr.typeOrValueError =>
        Except.error (PyError.ruleValidationError "value_cm must be numeric")
    | Except.error ConvErr.overflowError => Except.error PyError.overflowError

/-- Lookup in an embedded Python dict (dicts have unique keys, so first
match is the dict lookup). -/
def dictGet (kvs : List (String × Value)) (k : String) : Option Value :=
  match kvs.find? (fun kv => kv.1 = k) with
  | some kv => some kv.2
  | Option.none => Option.none

/-- One iteration of the validate_rules loop body at index idx: dict
check, key-presence checks, then operation and value validation. -/
def validateOne (idx : Nat) (raw : Value) : Except PyError Rule :=
  match raw with
  | Value.dict kvs =>
      if (dictGet kvs "operation").isNone then
        Except.error (PyError.ruleValidationError
          ("rule at index " ++ toString idx ++ " missing \x27operation\x27 field"))
      else if (dictGet kvs "value_cm").isNone then
        Except.error (PyError.ruleValidationError
          ("rule at index " ++ toString idx ++ " missing \x27value_cm\x27 field"))
      else
        match _validate_operation ((dictGet kvs "operation").getD Value.none) with
        | Except.error e => Except.error e
        | Except.ok op =>
            match _validate_value_cm ((dictGet kvs "value_cm").getD Value.none) with
            | Except.error e => Except.error e
            | Except.ok val => Except.ok ⟨op, val⟩
  | _ =>
      Except.error (PyError.ruleValidationError
        ("rule at index " ++ toString idx ++ " must be a dict"))

/-- The enumerate loop of validate_rules, appending normalized rules in
order and propagating the first exception. -/
def validateLoop (idx : Nat) : List Value → Except PyError (List Rule)
  | [] => Except.ok []
  | r :: rest =>
      match validateOne idx r with
      | Except.error e => Except.error e
      | Except.ok rule =>
          match validateLoop (idx + 1) rest with
          | Except.error e => Except.error e
          | Except.ok rules => Except.ok (rule :: rules)

/-- validate_rules from rules_engine.py: the input must be a non-empty
list; each element is validated and normalized in order. -/
def validate_rules (rules : Value) : Except PyError (List Rule) :=
  match rules with
  | Value.list xs =>
      if xs.length = 0 then
        Except.error (PyError.ruleValidationError "rules list cannot be empty")
      else validateLoop 0 xs
  | _ => Except.error (PyError.ruleValidationError "rules must be a list")

/-! Embedding of `src/backend/geometry_engine.py`. -/

/-- Modelled from the spec: the spec names the exception kinds
GeometryOutOfBoundsError and UnsupportedOperationError for the geometry
engine; the source defines neither.  They are declared here so claims
about raising them can be stated. -/
inductive GeometryError where
  | geometryOutOfBounds
  | unsupportedOperation
deriving Repr, DecidableEq

/-- OPERATION_HANDLERS from geometry_engine.py: declared as an empty
dict in the source (the placeholder table is defined but never used). -/
def OPERATION_HANDLERS : List (String × (String → PyFloat → String)) := []

/-- apply_geometry from geometry_engine.py: the scaffold implementation
returns the input SVG unchanged; its body is a single return of the
argument, so no exception can be raised and no rule is inspected. -/
def apply_geometry (svg : String) (_rules : List Rule) : Except GeometryError String :=
  Except.ok svg

/-! Spec-side definitions, written from the claims' words, to be
compared with the source-side functions above. -/

/-- Modelled from the spec: the twelve operations the specification
enumerates, in the spec's order of mention. -/
def specAllowedOperations : List String :=
  ["crop_hem", "extend_hem", "adjust_body_length", "shorten_sleeve",
   "extend_sleeve", "widen_sleeve", "narrow_sleeve", "add_ease_body",
   "remove_ease_body", "add_ease_sleeve", "raise_neckline", "lower_neckline"]

/-- Whether an Except value is a RuleValidationError (as opposed to a
success or to an uncaught OverflowError). -/
def isRuleValidationError {α : Type} : Except PyError α → Bool
  | Except.error (PyError.ruleValidationError _) => true
  | _ => false

/-- Whether a conversion result is a success. -/
def exceptIsOk {ε α : Type} : Except ε α → Bool
  | Except.ok _ => true
  | Except.error _ => false

/-- Modelled from the claim's words: the operation field is a non-empty
string lying in ALLOWED_OPERATIONS after stripping whitespace. -/
def claimOpOk : Value → Bool
  | Value.str s => decide (pyStrip s ≠ "") && decide (pyStrip s ∈ ALLOWED_OPERATIONS)
  | _ => false

/-- Modelled from the claim's words: a rule element is bad when it is
not a dict, lacks an operation or value_cm key, its operation is not a
non-empty string lying in ALLOWED_OPERATIONS after stripping, or its
value_cm is None or not convertible to float. -/
def claimElemBad (r : Value) : Bool :=
  match r with
  | Value.dict kvs =>
      (dictGet kvs "operation").isNone ||
      (dictGet kvs "value_cm").isNone ||
      (match dictGet kvs "operation" with
       | some opv => !(claimOpOk opv)
       | Option.none => true) ||
      (match dictGet kvs "value_cm" with
       | some v => valueIsNone v || !(exceptIsOk (pyFloatOf v))
       | Option.none => true)
  | _ => true

/-- Modelled from the claim's words: the whole input is bad when it is
not a list, is empty, or contains a bad element. -/
def claimBadRules (v : Value) : Bool :=
  match v with
  | Value.list [] => true
  | Value.list xs => xs.any claimElemBad
  | _ => true

/-- Modelled from the claim's words: the normalized form of one rule,
operation stripped and value_cm converted to float. -/
def claimNormalizeElem (r : Value) : Option Rule :=
  match r with
  | Value.dict kvs =>
      match dictGet kvs "operation", dictGet kvs "value_cm" with
      | some (Value.str s), some v =>
          match pyFloatOf v with
          | Except.ok f => some ⟨pyStrip s, f⟩
          | Except.error _ => Option.none
      | _, _ => Option.none
  | _ => Option.none

/-- Modelled from the claim's words: normalize a list of rule elements
in order, failing when any element fails. -/
def claimNormalizeList : List Value → Option (List Rule)
  | [] => some []
  | x :: xs =>
      match claimNormalizeElem x, claimNormalizeList xs with
      | some r, some rs => some (r :: rs)
      | _, _ => Option.none

/-- Modelled from the claim's words: the normalized rule list, elementwise
and in the same order. -/
def claimNormalize (v : Value) : Option (List Rule) :=
  match v with
  | Value.list xs => claimNormalizeList xs
  | _ => Option.none

/-- Whether a conversion outcome is the uncaught OverflowError. -/
def convOverflowed : Except ConvErr PyFloat → Bool
  | Except.error ConvErr.overflowError => true
  | _ => false

/-- Whether an element's value_cm field (if any) converts without the
uncaught OverflowError (the carve-out the amended claim C10 needs). -/
def elemNoOverflow (r : Value) : Bool :=
  match r with
  | Value.dict kvs =>
      match dictGet kvs "value_cm" with
      | some v => !(convOverflowed (pyFloatOf v))
      | Option.none => true
  | _ => true

/-- Whether no element of the payload has an overflowing value_cm. -/
def noOverflowValues (v : Value) : Bool :=
  match v with
  | Value.list xs => xs.all elemNoOverflow
  | _ => true

/-! Modelled from the spec: the source treats the SVG as an opaque
string (no parser exists in the repository), so the notions the claims
measure — the paths of an SVG document, path closedness, and the
hem-to-underarm extent of a body panel — are modelled here from the
spec's words and standard SVG syntax: paths are the contents of d
attributes, a path is closed when its data ends with the Z close
command, and the hem-to-underarm length of a plain rectangular body
panel is the vertical extent of its first path. -/

/-- Modelled from the spec: collect the contents of every d attribute
of the document (scan for the literal d-equals-quote and take up to the
closing quote). -/
def extractPaths : List Char → List String
  | 'd' :: '=' :: '\"' :: rest2 =>
      String.mk (rest2.takeWhile (fun x => x ≠ '\"')) :: extractPaths rest2
  | _ :: rest => extractPaths rest
  | [] => []

/-- Modelled from the spec: the list of path data strings of an SVG. -/
def pathsOf (svg : String) : List String :=
  extractPaths svg.toList

/-- Modelled from the spec: a path is closed when its stripped data ends
with the SVG close-path command Z (either case). -/
def isClosedPath (p : String) : Bool :=
  match (pyStrip p).toList.getLast? with
  | some c => c = 'Z' || c = 'z'
  | Option.none => false

/-- Split a character list into space-separated tokens. -/
def splitTokens (cs : List Char) : List (List Char) :=
  cs.foldr
    (fun c acc =>
      if c = ' ' then [] :: acc
      else
        match acc with
        | t :: ts => (c :: t) :: ts
        | [] => [[c]])
    [[]]

/-- Parse a signed decimal coordinate token; letters and empty tokens
give Option.none. -/
def coordOf (t : List Char) : Option ℚ :=
  match t with
  | '-' :: cs => (parseDecimalChars cs).map Rat.neg
  | cs => parseDecimalChars cs

/-- Modelled from the spec: the y coordinates of the first path of the
document, reading its numeric tokens pairwise as x y. -/
def yOfPairs : List ℚ → List ℚ
  | _ :: y :: rest => y :: yOfPairs rest
  | _ => []

/-- Modelled from the spec: all y coordinates of the first path. -/
def yCoordsOf (svg : String) : List ℚ :=
  match pathsOf svg with
  | [] => []
  | p :: _ => yOfPairs ((splitTokens p.toList).filterMap coordOf)

/-- Modelled from the spec: the hem-to-underarm length of a plain body
panel, as the vertical extent (max y minus min y) of its first path. -/
def hemToUnderarm (svg : String) : ℚ :=
  match yCoordsOf svg with
  | [] => 0
  | y :: ys => qsub (ys.foldl max y) (ys.foldl min y)

/-- Modelled from the spec: a base T-shirt body panel with
hem-to-underarm length 55 cm, as a rectangle of height 55 closed with Z. -/
def demoPanel55 : String :=
  "<svg><path d=\"M 0 0 L 40 0 L 40 55 L 0 55 Z\"/></svg>"

/-- Modelled from the spec: a body panel whose body length is 60 cm, for
the bounds-rejection scenario. -/
def demoPanel60 : String :=
  "<svg><path d=\"M 0 0 L 40 0 L 40 60 L 0 60 Z\"/></svg>"

/-- The integer 10 ^ 999, written as an explicit numeral so it evaluates
by reduction; the equation hugeInt_eq below checks it against the power
form. -/
def hugeInt : Int :=
  1000000000000000000000000000000000000000000000000000000000000000000000000000000000000000000000000000000000000000000000000000000000000000000000000000000000000000000000000000000000000000000000000000000000000000000000000000000000000000000000000000000000000000000000000000000000000000000000000000000000000000000000000000000000000000000000000000000000000000000000000000000000000000000000000000000000000000000000000000000000000000000000000000000000000000000000000000000000000000000000000000000000000000000000000000000000000000000000000000000000000000000000000000000000000000000000000000000000000000000000000000000000000000000000000000000000000000000000000000000000000000000000000000000000000000000000000000000000000000000000000000000000000000000000000000000000000000000000000000000000000000000000000000000000000000000000000000000000000000000000000000000000000000000000000000000000000000000000000000000000000000000000000000000000000000000000000000000000000000000000000000000000000000000000000000000000000000

/-- A rules payload whose single rule is well-formed except that its
value_cm is the integer 10 ^ 999, large enough that the builtin float
raises OverflowError on it. -/
def overflowPayload : Value :=
  Value.list
    [Value.dict [("operation", Value.str "crop_hem"), ("value_cm", Value.int hugeInt)]]

/-! Theorems settling the claims. -/

/-- C1: apply_geometry is deterministic — two invocations on identical
inputs yield byte-identical outputs.  The source body is a single
return of the argument and reads no module-level state, so the
embedding is a pure function and any two results on the same input
coincide. -/
theorem apply_geometry_deterministic (svg : String) (rules : List Rule)
    (o₁ o₂ : String)
    (h₁ : apply_geometry svg rules = Except.ok o₁)
    (h₂ : apply_geometry svg rules = Except.ok o₂) : o₁ = o₂ := by
  have e₁ : Except.ok (ε := GeometryError) svg = Except.ok o₁ := h₁
  have e₂ : Except.ok (ε := GeometryError) svg = Except.ok o₂ := h₂
  cases e₁
  cases e₂
  rfl

/-- Witness for C1 at a concrete input. -/
theorem apply_geometry_deterministic_witness : ("<svg/>" : String) = "<svg/>" :=
  apply_geometry_deterministic "<svg/>" [⟨"crop_hem", PyFloat.finite 5⟩]
    "<svg/>" "<svg/>" rfl rfl

/-- C2 counterexample: a crop_hem of 1000 cm on a panel whose body
length is 60 cm does not raise GeometryOutOfBoundsError — the scaffold
returns the piece unchanged and raises nothing. -/
theorem bounds_rejection_counterexample :
    apply_geometry demoPanel60 [⟨"crop_hem", PyFloat.finite 1000⟩]
        = Except.ok demoPanel60
    ∧ apply_geometry demoPanel60 [⟨"crop_hem", PyFloat.finite 1000⟩]
        ≠ Except.error GeometryError.geometryOutOfBounds
    ∧ hemToUnderarm demoPanel60 = 60 :=
  ⟨rfl, by simp [apply_geometry], by decide⟩

/-- C2 amended: apply_geometry performs no bounds checking at all — for
every piece and every value_cm (however large), it raises nothing and
returns the piece unchanged, so the no-partial-mutation part of the
claim holds while the rejection part does not. -/
theorem bounds_never_checked (svg : String) (v : PyFloat) :
    apply_geometry svg [⟨"crop_hem", v⟩] = Except.ok svg := rfl

/-- C3 counterexample: on the 55 cm base panel, the rule list with the
single crop_hem 5 rule returns the panel byte-identical to the input —
so its hem-to-underarm length is still 55 cm, not 50 cm, and the output
does not differ from the input at the hem (it differs nowhere). -/
theorem crop_hem_scenario_counterexample :
    apply_geometry demoPanel55 [⟨"crop_hem", PyFloat.finite 5⟩]
        = Except.ok demoPanel55
    ∧ hemToUnderarm demoPanel55 = 55
    ∧ (55 : ℚ) ≠ 50 :=
  ⟨rfl, by decide, by decide⟩

/-- C3 amended: applying crop_hem 5 to the 55 cm base panel returns the
panel unchanged — the hem-to-underarm length remains 55 cm and no anchor
moves, because the scaffold engine applies no transformation. -/
theorem crop_hem_scenario_noop :
    apply_geometry demoPanel55 [⟨"crop_hem", PyFloat.finite 5⟩]
        = Except.ok demoPanel55
    ∧ hemToUnderarm demoPanel55 = 55 :=
  ⟨rfl, by decide⟩

/-- C4: for every SVG string and every rule list, apply_geometry returns
the input string itself, unchanged, and raises no exception. -/
theorem apply_geometry_identity (svg : String) (rules : List Rule) :
    apply_geometry svg rules = Except.ok svg := rfl

/-- C5 counterexample: crop_hem is not in the (empty) OPERATION_HANDLERS
table, yet apply_geometry does not raise UnsupportedOperationError — it
silently returns the SVG unchanged. -/
theorem dispatcher_counterexample :
    OPERATION_HANDLERS.find? (fun h => h.1 = "crop_hem") = Option.none
    ∧ apply_geometry "<svg/>" [⟨"crop_hem", PyFloat.finite 5⟩]
        ≠ Except.error GeometryError.unsupportedOperation
    ∧ apply_geometry "<svg/>" [⟨"crop_hem", PyFloat.finite 5⟩]
        = Except.ok "<svg/>" :=
  ⟨rfl, by simp [apply_geometry], rfl⟩

/-- C5 amended: the dispatch table is empty and apply_geometry performs
no dispatch — every rule, whatever its operation name, misses the table
and is silently skipped with the SVG returned unchanged; no
UnsupportedOperationError is ever raised. -/
theorem dispatcher_silently_ignores (op : String) (v : PyFloat) (svg : String) :
    OPERATION_HANDLERS.find? (fun h => h.1 = op) = Option.none
    ∧ apply_geometry svg [⟨op, v⟩] = Except.ok svg :=
  ⟨rfl, rfl⟩

/-- C6: the rule lists crop_hem 2 then crop_hem 3, and crop_hem 5, give
the same output on every base geometry (both are the identity on the
scaffold engine, so the additivity equation holds). -/
theorem crop_hem_additive (svg : String) :
    apply_geometry svg
        [⟨"crop_hem", PyFloat.finite 2⟩, ⟨"crop_hem", PyFloat.finite 3⟩]
      = apply_geometry svg [⟨"crop_hem", PyFloat.finite 5⟩] := rfl

/-- C8: for every supported single-rule edit, every path that is closed
in the input is still present and closed in the output of
apply_geometry (the output is byte-identical to the input). -/
theorem closed_paths_preserved (svg out : String) (rules : List Rule)
    (p : String)
    (happ : apply_geometry svg rules = Except.ok out)
    (hp : p ∈ pathsOf svg) (hc : isClosedPath p = true) :
    p ∈ pathsOf out ∧ isClosedPath p = true := by
  have e : Except.ok (ε := GeometryError) svg = Except.ok out := happ
  cases e
  exact ⟨hp, hc⟩

/-- Witness for C8 on the demo panel and its single closed path. -/
theorem closed_paths_preserved_witness :
    ("M 0 0 L 40 0 L 40 55 L 0 55 Z" : String) ∈ pathsOf demoPanel55
    ∧ isClosedPath "M 0 0 L 40 0 L 40 55 L 0 55 Z" = true :=
  closed_paths_preserved demoPanel55 demoPanel55
    [⟨"crop_hem", PyFloat.finite 5⟩] "M 0 0 L 40 0 L 40 55 L 0 55 Z"
    rfl (by decide) (by decide)

/-- Sanity equation: the overflow-bound numeral is the claimed power
form 2 to the 1024 minus 2 to the 970. -/
theorem floatOverflowBound_eq : floatOverflowBound = 2 ^ 1024 - 2 ^ 970 := by
  rw [floatOverflowBound]
  norm_num

/-- Characterization of one loop iteration of validate_rules: under the
no-overflow side condition, it raises RuleValidationError exactly on the
claim's bad elements, succeeds exactly on good ones with the claim's
normalized rule, and never surfaces OverflowError. -/
theorem validateOne_spec (idx : Nat) (r : Value) (h : elemNoOverflow r = true) :
    (isRuleValidationError (validateOne idx r) = true ↔ claimElemBad r = true)
    ∧ (∀ rule, validateOne idx r = Except.ok rule ↔
        (claimElemBad r = false ∧ claimNormalizeElem r = some rule))
    ∧ validateOne idx r ≠ Except.error PyError.overflowError := by
  cases r
  case dict kvs => ?_
  all_goals
    try (simp [validateOne, claimElemBad, claimNormalizeElem, isRuleValidationError]; done)
  cases hop : dictGet kvs "operation"
  case none =>
    simp [validateOne, claimElemBad, claimNormalizeElem, isRuleValidationError, hop]
  case some opv => ?_
  cases hval : dictGet kvs "value_cm"
  case none =>
    simp [validateOne, claimElemBad, claimNormalizeElem, isRuleValidationError, hop, hval]
  case some valv => ?_
  cases opv
  case str s => ?_
  all_goals
    try (simp [validateOne, claimElemBad, claimNormalizeElem, claimOpOk,
      isRuleValidationError, _validate_operation, hop, hval]; done)
  by_cases hemp : pyStrip s = ""
  · simp [validateOne, claimElemBad, claimNormalizeElem, claimOpOk,
      isRuleValidationError, _validate_operation, hop, hval, hemp]
  by_cases hmem : pyStrip s ∈ ALLOWED_OPERATIONS
  case neg =>
    simp [validateOne, claimElemBad, claimNormalizeElem, claimOpOk,
      isRuleValidationError, _validate_operation, hop, hval, hemp, hmem]
  by_cases hnone : valueIsNone valv = true
  · simp [validateOne, claimElemBad, claimNormalizeElem, claimOpOk,
      isRuleValidationError, _validate_operation, _validate_value_cm,
      hop, hval, hemp, hmem, hnone]
  cases hconv : pyFloatOf valv with
  | ok f =>
    simp [validateOne, claimElemBad, claimNormalizeElem, claimOpOk,
      isRuleValidationError, exceptIsOk, _validate_operation, _validate_value_cm,
      hop, hval, hemp, hmem, hnone, hconv]
  | error e =>
    have hco : elemNoOverflow (Value.dict kvs) = true := h
    cases e with
    | typeOrValueError =>
      simp [validateOne, claimElemBad, claimNormalizeElem, claimOpOk,
        isRuleValidationError, exceptIsOk, _validate_operation, _validate_value_cm,
        hop, hval, hemp, hmem, hnone, hconv]
    | overflowError =>
      exfalso
      simp [elemNoOverflow, hval, hconv, convOverflowed] at hco

/-- Characterization of the whole validate_rules loop: under the
no-overflow side condition it raises RuleValidationError exactly when
some element is bad, succeeds exactly when all elements are good with
the elementwise normalization in order, and never surfaces
OverflowError. -/
theorem validateLoop_spec (xs : List Value) (idx : Nat)
    (h : xs.all elemNoOverflow = true) :
    (isRuleValidationError (validateLoop idx xs) = true ↔ xs.any claimElemBad = true)
    ∧ (∀ l, validateLoop idx xs = Except.ok l ↔
        (xs.any claimElemBad = false ∧ claimNormalizeList xs = some l))
    ∧ validateLoop idx xs ≠ Except.error PyError.overflowError := by
  induction xs generalizing idx with
  | nil => simp [validateLoop, isRuleValidationError, claimNormalizeList]
  | cons x xs ih =>
      rw [List.all_cons, Bool.and_eq_true] at h
      obtain ⟨h1, h2, h3⟩ := validateOne_spec idx x h.1
      obtain ⟨ih1, ih2, ih3⟩ := ih (idx + 1) h.2
      cases hv : validateOne idx x with
      | error e =>
          cases e with
          | overflowError => exact absurd hv h3
          | ruleValidationError msg =>
              have hbad : claimElemBad x = true := by
                rw [← h1, hv]
                rfl
              refine ⟨?_, ?_, ?_⟩
              · simp [validateLoop, hv, isRuleValidationError, List.any_cons, hbad]
              · intro l
                simp [validateLoop, hv, List.any_cons, hbad]
              · simp [validateLoop, hv]
      | ok rule =>
          obtain ⟨hgood, hnorm⟩ := (h2 rule).mp hv
          cases hrest : validateLoop (idx + 1) xs with
          | error e2 =>
              refine ⟨?_, ?_, ?_⟩
              · have he := ih1
                rw [hrest] at he
                simpa [validateLoop, hv, hrest, List.any_cons, hgood] using he
              · intro l
                constructor
                · intro hcontra
                  simp [validateLoop, hv, hrest] at hcontra
                · rintro ⟨ha, hm⟩
                  exfalso
                  rw [List.any_cons, Bool.or_eq_false_iff] at ha
                  cases hcl : claimNormalizeList xs with
                  | none => simp [claimNormalizeList, hnorm, hcl] at hm
                  | some l2 =>
                      have := (ih2 l2).mpr ⟨ha.2, hcl⟩
                      rw [hrest] at this
                      simp at this
              · simp [validateLoop, hv, hrest]
                have := ih3
                rw [hrest] at this
                simpa using this
          | ok rules =>
              obtain ⟨hany, hmap⟩ := (ih2 rules).mp hrest
              refine ⟨?_, ?_, ?_⟩
              · simp [validateLoop, hv, hrest, isRuleValidationError,
                  List.any_cons, hgood, hany]
              · intro l
                simp [validateLoop, hv, hrest, List.any_cons, hgood, hany,
                  claimNormalizeList, hnorm, hmap]
              · simp [validateLoop, hv, hrest]

/-- Sanity equation: hugeInt is 10 to the 999. -/
theorem hugeInt_eq : hugeInt = 10 ^ 999 := by
  rw [hugeInt]
  norm_num

/-- C10 amended: for payloads none of whose value_cm fields overflows
the builtin float, validate_rules raises RuleValidationError exactly
when the input is not a list, is empty, or has an element that is not a
dict, lacks a key, has a bad operation, or has a None or unconvertible
value_cm; and it succeeds exactly on good inputs, returning the rules
normalized elementwise in order (operation stripped, value_cm as
float). -/
theorem validate_rules_characterization (v : Value)
    (h : noOverflowValues v = true) :
    (isRuleValidationError (validate_rules v) = true ↔ claimBadRules v = true)
    ∧ (∀ l, validate_rules v = Except.ok l ↔
        (claimBadRules v = false ∧ claimNormalize v = some l)) := by
  cases v
  case list xs => ?_
  all_goals
    try (simp [validate_rules, claimBadRules, claimNormalize, isRuleValidationError]; done)
  cases xs with
  | nil =>
      simp [validate_rules, claimBadRules, claimNormalize, isRuleValidationError]
  | cons x xs =>
      have h' : (x :: xs).all elemNoOverflow = true := h
      obtain ⟨l1, l2, -⟩ := validateLoop_spec (x :: xs) 0 h'
      constructor
      · simpa [validate_rules, claimBadRules] using l1
      · intro l
        simpa [validate_rules, claimBadRules, claimNormalize] using l2 l

/-- Witness for C10 at a concrete good payload. -/
theorem validate_rules_characterization_witness :
    validate_rules
        (Value.list
          [Value.dict
            [("operation", Value.str " crop_hem "), ("value_cm", Value.int 5)]])
      = Except.ok [⟨"crop_hem", PyFloat.finite 5⟩] :=
  ((validate_rules_characterization
      (Value.list
        [Value.dict
          [("operation", Value.str " crop_hem "), ("value_cm", Value.int 5)]])
      (by decide)).2 [⟨"crop_hem", PyFloat.finite 5⟩]).mpr
    ⟨by decide, by decide⟩

/-- C10 counterexample: the payload whose value_cm is 10 ^ 999 satisfies
the claim's error condition (its value_cm is not convertible to float),
yet validate_rules does not raise RuleValidationError for it — the
uncaught OverflowError escapes instead. -/
theorem validate_rules_overflow_counterexample :
    claimBadRules overflowPayload = true
    ∧ isRuleValidationError (validate_rules overflowPayload) = false
    ∧ validate_rules overflowPayload = Except.error PyError.overflowError :=
  ⟨rfl, rfl, rfl⟩

/-- Helper for C9: the operation validator only accepts members of
ALLOWED_OPERATIONS. -/
theorem _validate_operation_ok (name : Value) (op : String)
    (h : _validate_operation name = Except.ok op) : op ∈ ALLOWED_OPERATIONS := by
  cases name
  case str s => ?_
  all_goals try (simp [_validate_operation] at h; done)
  by_cases hemp : pyStrip s = ""
  · simp [_validate_operation, hemp] at h
  by_cases hmem : pyStrip s ∈ ALLOWED_OPERATIONS
  · simp [_validate_operation, hemp, hmem] at h
    rw [← h]
    exact hmem
  · simp [_validate_operation, hemp, hmem] at h

/-- Helper for C9: a successfully validated rule carries an allowed
operation. -/
theorem validateOne_ok_op (idx : Nat) (r : Value) (rule : Rule)
    (hv : validateOne idx r = Except.ok rule) :
    rule.operation ∈ ALLOWED_OPERATIONS := by
  cases r
  case dict kvs => ?_
  all_goals try (simp [validateOne] at hv; done)
  cases hop : dictGet kvs "operation" with
  | none => simp [validateOne, hop] at hv
  | some opv =>
      cases hval : dictGet kvs "value_cm" with
      | none => simp [validateOne, hop, hval] at hv
      | some valv =>
          cases hvo : _validate_operation opv with
          | error e => simp [validateOne, hop, hval, hvo] at hv
          | ok op =>
              cases hvc : _validate_value_cm valv with
              | error e => simp [validateOne, hop, hval, hvo, hvc] at hv
              | ok f =>
                  simp [validateOne, hop, hval, hvo, hvc] at hv
                  rw [← hv]
                  exact _validate_operation_ok opv op hvo

/-- Helper for C9: every rule in a successful validate_rules output
carries an allowed operation. -/
theorem validateLoop_ok_ops (xs : List Value) (idx : Nat) (l : List Rule)
    (hv : validateLoop idx xs = Except.ok l) :
    ∀ r ∈ l, r.operation ∈ ALLOWED_OPERATIONS := by
  induction xs generalizing idx l with
  | nil =>
      simp [validateLoop] at hv
      rw [hv]
      simp
  | cons x xs ih =>
      cases hone : validateOne idx x with
      | error e => simp [validateLoop, hone] at hv
      | ok rule =>
          cases hrest : validateLoop (idx + 1) xs with
          | error e => simp [validateLoop, hone, hrest] at hv
          | ok rules =>
              simp [validateLoop, hone, hrest] at hv
              rw [← hv]
              intro r hr
              rcases List.mem_cons.mp hr with h1 | h2
              · rw [h1]
                exact validateOne_ok_op idx x rule hone
              · exact ih (idx + 1) rules hrest r h2

/-- C9: ALLOWED_OPERATIONS is exactly the twelve operations the spec
enumerates; an operation whose stripped form lies outside the set is
rejected by the operation validator with RuleValidationError; and every
rule accepted by validate_rules carries an operation in the set. -/
theorem allowed_operations_exact :
    (∀ op : String, op ∈ ALLOWED_OPERATIONS ↔ op ∈ specAllowedOperations)
    ∧ (∀ s : String, pyStrip s ∉ ALLOWED_OPERATIONS →
        ∃ msg, _validate_operation (Value.str s)
          = Except.error (PyError.ruleValidationError msg))
    ∧ (∀ v l, validate_rules v = Except.ok l →
        ∀ r ∈ l, r.operation ∈ ALLOWED_OPERATIONS) := by
  refine ⟨?_, ?_, ?_⟩
  · intro op
    constructor <;> intro hm <;>
      · simp [ALLOWED_OPERATIONS, specAllowedOperations] at hm ⊢
        tauto
  · intro s hs
    by_cases hemp : pyStrip s = ""
    · exact ⟨"operation cannot be empty", by simp [_validate_operation, hemp]⟩
    · exact ⟨"unsupported operation: " ++ pyStrip s,
        by simp [_validate_operation, hemp, hs]⟩
  · intro v l hok
    cases v
    case list xs => ?_
    all_goals try (simp [validate_rules] at hok; done)
    cases xs with
    | nil => simp [validate_rules, validateLoop] at hok
    | cons x xs =>
        have hloop : validateLoop 0 (x :: xs) = Except.ok l := by
          simpa [validate_rules] using hok
        exact validateLoop_ok_ops (x :: xs) 0 l hloop

/-- Witness for C9: a member of the enumerated set, and a concrete
rejected operation string. -/
theorem allowed_operations_exact_witness :
    ("crop_hem" : String) ∈ specAllowedOperations
    ∧ ∃ msg, _validate_operation (Value.str " bogus_edit ")
        = Except.error (PyError.ruleValidationError msg) :=
  ⟨(allowed_operations_exact.1 "crop_hem").mp (by decide),
   allowed_operations_exact.2.1 " bogus_edit " (by decide)⟩

end Cutmind
